import Mathlib

/-!
Verification of the `bcl/air-sensors` sensor-communication core.

Shallow embedding of the Go sources `pmsa003i/pmsa003i.go` and
`sgp30/sgp30.go` (plus the behaviour of `New`'s baseline restore), with
theorems settling the specification claims.

Bytes are modelled as `Nat` (values < 256 where the Go type `byte`
guarantees it); 16-bit machine arithmetic is made explicit with `% 65536`;
time instants and durations (`time.Time`, `time.Duration`) are modelled as
`Int`.  The i2c transport (`periph.io` `conn.Conn.Tx`) is modelled as a
scripted playback bus, mirroring the `i2ctest.Playback` fake used by the
repository's own tests: each `Tx` call consumes the next script entry and
records the written bytes in a trace.
-/

set_option maxRecDepth 16384

deriving instance DecidableEq for Except

namespace AirSensors

/-- Errors returned as values by the drivers (the distinct `fmt.Errorf`
cases of the Go code): transport failure, CRC-8 failure of a numbered
3-byte group, bad start word, bad checksum, nonzero device error code. -/
inductive DevError where
  | txError : DevError
  | crcError (group : Nat) : DevError
  | badStartWord : DevError
  | badChecksum : DevError
  | errorCode (c : Nat) : DevError
deriving DecidableEq, Repr

/-- One step of the CRC-8 computation of the `sigurn/crc8` library as
configured in `sgp30.go` (`Poly: 0x31, Init: 0xFF, RefIn: false,
RefOut: false, XorOut: 0x00`): xor the byte into the accumulator, then
eight MSB-first polynomial-division steps. -/
def crc8update (crc b : Nat) : Nat :=
  let step : Nat → Nat := fun c =>
    if c.testBit 7 then ((c * 2) ^^^ 0x31) % 256 else (c * 2) % 256
  step (step (step (step (step (step (step (step ((crc ^^^ b) % 256))))))))

/-- `crc8.Checksum(data, CRC8_SGP30)`: fold `crc8update` over the bytes,
starting from the initial value 0xFF. -/
def crc8 (data : List Nat) : Nat :=
  data.foldl crc8update 0xFF

/-- `checkCRC8` from `sgp30.go`: a byte group is accepted iff the CRC-8
over all its bytes has zero residue. -/
def checkCRC8 (data : List Nat) : Bool :=
  crc8 data == 0x00

/-- `word` (identical in both packages): big-endian 16-bit value from the
two bytes at offsets `i`, `i+1`. -/
def word (data : List Nat) (i : Nat) : Nat :=
  (data.getD i 0) * 256 + data.getD (i + 1) 0

/-- `checksum` from `pmsa003i.go`: 16-bit wraparound sum of all bytes but
the last two, compared against the word at the fixed offset 0x1e. -/
def checksum (data : List Nat) : Bool :=
  let cksum := (data.take (data.length - 2)).foldl (fun c b => (c + b) % 65536) 0
  word data 0x1e == cksum

/-- One scripted reply of the playback bus: either the bytes the device
answers with, or a transport failure. -/
inductive Reply where
  | ok (bytes : List Nat) : Reply
  | fail : Reply
deriving DecidableEq, Repr

/-- Playback bus state: the remaining script and the trace of write-byte
sequences issued so far (mirrors `i2ctest.Playback` from the repo's tests). -/
structure BusState where
  script : List Reply
  trace : List (List Nat)
deriving DecidableEq, Repr

/-- A fresh bus with the given script and an empty trace. -/
def mkBus (script : List Reply) : BusState :=
  { script := script, trace := [] }

/-- `d.i2c.Tx(w, r)`: record the write, consume the next script entry; a
missing entry, a scripted failure, or a reply of the wrong length is a
transport error (`readLen` is the length of the Go read buffer). -/
def tx (bus : BusState) (w : List Nat) (readLen : Nat) :
    Except DevError (List Nat) × BusState :=
  match bus.script with
  | [] => (.error .txError, { script := [], trace := bus.trace ++ [w] })
  | r :: rest =>
    let bus' : BusState := { script := rest, trace := bus.trace ++ [w] }
    match r with
    | .fail => (.error .txError, bus')
    | .ok bytes =>
      if bytes.length = readLen then (.ok bytes, bus') else (.error .txError, bus')

/-- `Results` from `pmsa003i.go`: the decoded particle measurements. -/
structure Results where
  CfPm1 : Nat
  CfPm2_5 : Nat
  CfPm10 : Nat
  EnvPm1 : Nat
  EnvPm2_5 : Nat
  EnvPm10 : Nat
  Cnt0_3 : Nat
  Cnt0_5 : Nat
  Cnt1 : Nat
  Cnt2_5 : Nat
  Cnt5 : Nat
  Cnt10 : Nat
  Version : Nat
deriving DecidableEq, Repr

/-- `Dev.ReadSensor` from `pmsa003i.go`: read a 32-byte frame, validate
start word, checksum and device error code, decode the fixed offsets. -/
def readSensor (bus : BusState) : Except DevError Results × BusState :=
  match tx bus [] 32 with
  | (.error e, b) => (.error e, b)
  | (.ok data, b) =>
    if word data 0 ≠ 0x424d then (.error .badStartWord, b)
    else if ¬ checksum data then (.error .badChecksum, b)
    else if data.getD 0x1d 0 ≠ 0x00 then (.error (.errorCode (data.getD 0x1d 0)), b)
    else
      (.ok { CfPm1 := word data 0x04, CfPm2_5 := word data 0x06, CfPm10 := word data 0x08,
             EnvPm1 := word data 0x0a, EnvPm2_5 := word data 0x0c, EnvPm10 := word data 0x0e,
             Cnt0_3 := word data 0x10, Cnt0_5 := word data 0x12, Cnt1 := word data 0x14,
             Cnt2_5 := word data 0x16, Cnt5 := word data 0x18, Cnt10 := word data 0x1a,
             Version := data.getD 0x1c 0 }, b)

/-- The gas-sensor driver state (`Dev` from `sgp30.go`): baseline file
path, save interval and last-save time (`time.Duration`/`time.Time`
modelled as `Int`). -/
structure Dev where
  baselineFile : String
  baselineInterval : Int
  lastSave : Int
deriving DecidableEq, Repr

/-- `Dev.GetSerialNumber` from `sgp30.go`: send 0x36 0x82, read 9 bytes,
CRC-check the three 3-byte groups, and assemble
`uint64(word 0) << 24 + uint64(word 3) << 16 + uint64(word 6)`
(the shift amounts are exactly the source's). -/
def getSerialNumber (bus : BusState) : Except DevError Nat × BusState :=
  match tx bus [0x36, 0x82] 9 with
  | (.error e, b) => (.error e, b)
  | (.ok data, b) =>
    if ¬ checkCRC8 (data.take 3) then (.error (.crcError 1), b)
    else if ¬ checkCRC8 ((data.drop 3).take 3) then (.error (.crcError 2), b)
    else if ¬ checkCRC8 ((data.drop 6).take 3) then (.error (.crcError 3), b)
    else (.ok (word data 0 * 2 ^ 24 + word data 3 * 2 ^ 16 + word data 6), b)

/-- `Dev.GetFeatures` from `sgp30.go`: send 0x20 0x2F, read 3 bytes,
CRC-check the single group, return product type and version bytes. -/
def getFeatures (bus : BusState) : Except DevError (Nat × Nat) × BusState :=
  match tx bus [0x20, 0x2f] 3 with
  | (.error e, b) => (.error e, b)
  | (.ok data, b) =>
    if ¬ checkCRC8 (data.take 3) then (.error (.crcError 1), b)
    else (.ok (data.getD 0 0, data.getD 1 0), b)

/-- `Dev.StartMeasurements` from `sgp30.go`: send 0x20 0x03 with no reply. -/
def startMeasurements (bus : BusState) : Except DevError Unit × BusState :=
  match tx bus [0x20, 0x03] 0 with
  | (.error e, b) => (.error e, b)
  | (.ok _, b) => (.ok (), b)

/-- `Dev.ReadBaseline` from `sgp30.go`: send 0x20 0x15, read 6 bytes,
CRC-check both groups, return the raw 6 bytes. -/
def readBaseline (bus : BusState) : Except DevError (List Nat) × BusState :=
  match tx bus [0x20, 0x15] 6 with
  | (.error e, b) => (.error e, b)
  | (.ok data, b) =>
    if ¬ checkCRC8 (data.take 3) then (.error (.crcError 1), b)
    else if ¬ checkCRC8 ((data.drop 3).take 3) then (.error (.crcError 2), b)
    else (.ok data, b)

/-- `baseline[3:6] ++ baseline[0:3]`: the group swap `SetBaseline` applies
before writing (read order is CO₂-group then TVOC-group; write order is
the reverse). -/
def swapGroups (baseline : List Nat) : List Nat :=
  (baseline.drop 3).take 3 ++ baseline.take 3

/-- The full byte sequence `SetBaseline` writes on the bus:
`0x20 0x1E ++ baseline[3:6] ++ baseline[0:3]`. -/
def setBaselineWire (baseline : List Nat) : List Nat :=
  [0x20, 0x1e] ++ swapGroups baseline

/-- `Dev.SetBaseline` from `sgp30.go`: CRC-check `baseline[0:3]` and
`baseline[3:6]`, issue `StartMeasurements` *discarding its result*, then
write `0x20 0x1E` followed by the two groups in swapped order.  Faithful
for inputs of length ≥ 6 (the only ones any theorem uses); shorter inputs
hit Go slice-bounds semantics of the capacity of `ioutil.ReadFile`'s
buffer, which are not modelled. -/
def setBaseline (baseline : List Nat) (bus : BusState) :
    Except DevError Unit × BusState :=
  if ¬ checkCRC8 (baseline.take 3) then (.error (.crcError 1), bus)
  else if ¬ checkCRC8 ((baseline.drop 3).take 3) then (.error (.crcError 2), bus)
  else
    let (_, b1) := startMeasurements bus
    match tx b1 (setBaselineWire baseline) 0 with
    | (.error _, b2) => (.error .txError, b2)
    | (.ok _, b2) => (.ok (), b2)

/-- Outcome of `Dev.ReadAirQuality`: the CO₂/TVOC result, the updated
driver state, the bus after the call, and the file writes performed
(path, contents) — the persistence half of an autosave. -/
structure AQOutcome where
  res : Except DevError (Nat × Nat)
  dev : Dev
  bus : BusState
  fileWrites : List (String × List Nat)
deriving Repr

/-- `Dev.ReadAirQuality` from `sgp30.go`: send 0x20 0x08, delay, read 6
bytes, CRC-check both groups; then, if a baseline file is configured and
`time.Since(lastSave) ≥ baselineInterval`, set `lastSave := now` *first*,
then `ReadBaseline` (surfacing its error) and write the file (its error
is discarded; the write is recorded in `fileWrites`); finally return
`(word data 0, word data 3)`.  `now` stands for `time.Now()`. -/
def readAirQuality (d : Dev) (now : Int) (bus : BusState) : AQOutcome :=
  match tx bus [0x20, 0x08] 0 with
  | (.error e, b) => ⟨.error e, d, b, []⟩
  | (.ok _, b0) =>
    match tx b0 [] 6 with
    | (.error e, b) => ⟨.error e, d, b, []⟩
    | (.ok data, b1) =>
      if ¬ checkCRC8 (data.take 3) then ⟨.error (.crcError 1), d, b1, []⟩
      else if ¬ checkCRC8 ((data.drop 3).take 3) then ⟨.error (.crcError 2), d, b1, []⟩
      else if 0 < d.baselineFile.length ∧ d.baselineInterval ≤ now - d.lastSave then
        let d' : Dev := { d with lastSave := now }
        match readBaseline b1 with
        | (.error e, b2) => ⟨.error e, d', b2, []⟩
        | (.ok baseline, b2) =>
          ⟨.ok (word data 0, word data 3), d', b2, [(d.baselineFile, baseline)]⟩
      else ⟨.ok (word data 0, word data 3), d, b1, []⟩

/-- `New` from `sgp30.go`: read the serial number (fail fast), then, if a
baseline file path was supplied, record path/interval/`lastSave := now`
and, when the file exists (`fileContents = some c`), apply `SetBaseline`
to its full contents, failing construction on its error; a missing file
(`none`) is ignored.  When no path is supplied the `Dev` keeps the Go
zero values for the persistence fields. -/
def new (bus : BusState) (baselineFile : String)
    (fileContents : Option (List Nat)) (baselineInterval : Int) (now : Int) :
    Except DevError Dev × BusState :=
  match getSerialNumber bus with
  | (.error e, b) => (.error e, b)
  | (.ok _, b) =>
    if 0 < baselineFile.length then
      let d : Dev := { baselineFile := baselineFile,
                       baselineInterval := baselineInterval, lastSave := now }
      match fileContents with
      | none => (.ok d, b)
      | some c =>
        match setBaseline c b with
        | (.error e, b') => (.error e, b')
        | (.ok _, b') => (.ok d, b')
    else (.ok { baselineFile := "", baselineInterval := 0, lastSave := 0 }, b)

/-- The repository's `GoodSensorData` particle frame (also the literal
frame of the spec's testable properties). -/
def goodFrame : List Nat :=
  [0x42, 0x4d, 0x00, 0x1c, 0x00, 0x00, 0x00, 0x01,
   0x00, 0x05, 0x00, 0x00, 0x00, 0x01, 0x00, 0x05,
   0x00, 0x7e, 0x00, 0x2a, 0x00, 0x0f, 0x00, 0x09,
   0x00, 0x03, 0x00, 0x03, 0x97, 0x00, 0x02, 0x14]

/-- The repository's `GoodSerialNumber` reply: three valid CRC-8 groups. -/
def goodSerialReply : List Nat :=
  [0x00, 0x00, 0x81, 0x01, 0x57, 0x9C, 0xAC, 0xA2, 0x54]

/-- The same three valid CRC-8 groups in a different order, so that the
first 16-bit word of the reply is nonzero. -/
def permutedSerialReply : List Nat :=
  [0x01, 0x57, 0x9C, 0xAC, 0xA2, 0x54, 0x00, 0x00, 0x81]

/-- The repository's `GoodFeaturesData` reply. -/
def goodFeaturesReply : List Nat := [0x00, 0x22, 0x65]

/-- The repository's `GoodBaselineData`: two valid CRC-8 groups. -/
def goodBaseline : List Nat := [0x88, 0xa1, 0x58, 0x8d, 0xc4, 0x61]

/-- The repository's `GoodAirQualityData` reply: CO₂ 414 ppm, TVOC 13 ppb. -/
def goodAQReply : List Nat := [0x01, 0x9e, 0x53, 0x00, 0x0d, 0xcd]

/-- The ASCII bytes of the canonical CRC test vector "123456789". -/
def asciiCheckVector : List Nat := [49, 50, 51, 52, 53, 54, 55, 56, 57]

/-- A 7-byte calibration file whose first 6 bytes are `goodBaseline`. -/
def sevenByteFile : List Nat := [0x88, 0xa1, 0x58, 0x8d, 0xc4, 0x61, 0x00]

end AirSensors

namespace AirSensors

/-- C1: For every 9-byte serial-number reply delivered without transport
error whose three 3-byte groups each pass CRC-8, the claim states that
`GetSerialNumber` returns `w0 * 2 ^ 32 + w1 * 2 ^ 16 + w2`.  The code
instead computes `w0 * 2 ^ 24 + w1 * 2 ^ 16 + w2` (shift 24 where a
48-bit assembly needs 32, making words 0 and 1 overlap), contradicting
its own doc comment "returns the 48 bit serial number".  At the reply
`permutedSerialReply` (all three groups CRC-valid, first word
`0x0157 ≠ 0`) the returned value is the overlapping sum and differs from
the claimed 48-bit assembly.  The repo's own test vector has `w0 = 0`,
where the two formulas coincide, hiding the slip. -/
theorem getSerialNumber_shift24_bug :
    checkCRC8 (permutedSerialReply.take 3) = true
    ∧ checkCRC8 ((permutedSerialReply.drop 3).take 3) = true
    ∧ checkCRC8 ((permutedSerialReply.drop 6).take 3) = true
    ∧ word permutedSerialReply 0 = 0x0157
    ∧ word permutedSerialReply 3 = 0xACA2
    ∧ word permutedSerialReply 6 = 0x0000
    ∧ (getSerialNumber (mkBus [.ok permutedSerialReply])).1
        = .ok (0x0157 * 2 ^ 24 + 0xACA2 * 2 ^ 16 + 0x0000)
    ∧ 0x0157 * 2 ^ 24 + 0xACA2 * 2 ^ 16 + 0x0000
        ≠ 0x0157 * 2 ^ 32 + 0xACA2 * 2 ^ 16 + 0x0000 := by
  decide

/-- C8 counterexample: the claim states that the CRC-8 with polynomial
0x31, initial value 0xFF, no reflection and no final XOR yields 0xA1 on
the ASCII bytes of "123456789"; the computation actually yields 0xF7
(0xA1 is the check value of the bit-reflected CRC-8/MAXIM variant; the
`Check` field of the Go parameter table is never verified by the
library). -/
theorem crc8_check_value_not_A1 : crc8 asciiCheckVector ≠ 0xA1 := by
  decide

/-- C8 (amended): the CRC-8 validator (polynomial 0x31, initial value
0xFF, no reflection, no final XOR) yields 0xF7 on the ASCII bytes of
"123456789"; a 3-byte group is accepted by `checkCRC8` iff the CRC-8
over all its bytes has zero residue; the validator accepts all of the
device groups of the repository's test vectors and rejects the all-zero
group. -/
theorem crc8_parameters :
    crc8 asciiCheckVector = 0xF7
    ∧ (∀ g : List Nat, checkCRC8 g = true ↔ crc8 g = 0)
    ∧ checkCRC8 [0x00, 0x00, 0x81] = true
    ∧ checkCRC8 [0x01, 0x57, 0x9C] = true
    ∧ checkCRC8 [0xAC, 0xA2, 0x54] = true
    ∧ checkCRC8 [0x88, 0xa1, 0x58] = true
    ∧ checkCRC8 [0x8d, 0xc4, 0x61] = true
    ∧ checkCRC8 [0x01, 0x9e, 0x53] = true
    ∧ checkCRC8 [0x00, 0x0d, 0xcd] = true
    ∧ checkCRC8 [0x00, 0x22, 0x65] = true
    ∧ checkCRC8 [0x00, 0x00, 0x00] = false := by
  refine ⟨by decide, fun g => ?_, by decide, by decide, by decide, by decide,
    by decide, by decide, by decide, by decide, by decide⟩
  simp [checkCRC8]

/-- Witness for `crc8_parameters` at the first group of the repository's
baseline test vector. -/
theorem crc8_parameters_witness :
    checkCRC8 [0x88, 0xa1, 0x58] = true ↔ crc8 [0x88, 0xa1, 0x58] = 0 :=
  crc8_parameters.2.1 [0x88, 0xa1, 0x58]

/-- C5: For every 6-byte baseline whose two 3-byte groups pass CRC-8,
`SetBaseline` transmits first the Start-Measurements bytes and then
`0x20 0x1E` followed by baseline bytes 3–5 and then bytes 0–2; for the
literal baseline `88 A1 58 8D C4 61` the baseline write is
`20 1E 8D C4 61 88 A1 58`; and the group swap is an involution on 6-byte
baselines. -/
theorem setBaseline_wire_order (baseline : List Nat)
    (hlen : baseline.length = 6)
    (h1 : checkCRC8 (baseline.take 3) = true)
    (h2 : checkCRC8 ((baseline.drop 3).take 3) = true) :
    (setBaseline baseline (mkBus [.ok [], .ok []])).2.trace
      = [[0x20, 0x03], [0x20, 0x1e] ++ (baseline.drop 3).take 3 ++ baseline.take 3]
    ∧ (setBaseline goodBaseline (mkBus [.ok [], .ok []])).2.trace
      = [[0x20, 0x03], [0x20, 0x1e, 0x8d, 0xc4, 0x61, 0x88, 0xa1, 0x58]]
    ∧ swapGroups (swapGroups baseline) = baseline := by
  refine ⟨?_, by decide, ?_⟩
  · simp [setBaseline, setBaselineWire, swapGroups, startMeasurements, tx, mkBus, h1, h2]
  · match baseline, hlen with
    | [a, b, c, d, e, f], _ => simp [swapGroups]

/-- C10: For every baseline whose two groups pass CRC-8, `SetBaseline`
issues the Start-Measurements command before the baseline write but
discards its result: even when that embedded exchange fails on the bus,
`SetBaseline` still attempts the `0x20 0x1E` baseline write and reports
success when it succeeds. -/
theorem setBaseline_ignores_startMeasurements (baseline : List Nat)
    (rest : List Reply)
    (h1 : checkCRC8 (baseline.take 3) = true)
    (h2 : checkCRC8 ((baseline.drop 3).take 3) = true) :
    (setBaseline baseline (mkBus (.fail :: .ok [] :: rest))).1 = .ok ()
    ∧ (setBaseline baseline (mkBus (.fail :: .ok [] :: rest))).2.trace
      = [[0x20, 0x03], setBaselineWire baseline] := by
  constructor
  · simp [setBaseline, startMeasurements, tx, mkBus, h1, h2]
  · simp [setBaseline, startMeasurements, tx, mkBus, h1, h2]

/-- Witness for `setBaseline_wire_order` at the repository's literal
baseline. -/
theorem setBaseline_wire_order_witness :
    (setBaseline goodBaseline (mkBus [.ok [], .ok []])).2.trace
      = [[0x20, 0x03], [0x20, 0x1e] ++ (goodBaseline.drop 3).take 3 ++ goodBaseline.take 3]
    ∧ swapGroups (swapGroups goodBaseline) = goodBaseline :=
  ⟨(setBaseline_wire_order goodBaseline (by decide) (by decide) (by decide)).1,
   (setBaseline_wire_order goodBaseline (by decide) (by decide) (by decide)).2.2⟩

/-- Witness for `setBaseline_ignores_startMeasurements` at the
repository's literal baseline with a failing Start-Measurements. -/
theorem setBaseline_ignores_startMeasurements_witness :
    (setBaseline goodBaseline (mkBus [.fail, .ok []])).1 = .ok () :=
  (setBaseline_ignores_startMeasurements goodBaseline [] (by decide) (by decide)).1

/-- Folding 16-bit wraparound addition over a list is addition of the
list sum modulo 2^16. -/
theorem foldl_mod_add_sum (l : List Nat) (c : Nat) (hc : c < 65536) :
    l.foldl (fun c b => (c + b) % 65536) c = (c + l.sum) % 65536 := by
  induction l generalizing c with
  | nil => simpa using (Nat.mod_eq_of_lt hc).symm
  | cons b t ih =>
    rw [List.foldl_cons, ih _ (Nat.mod_lt _ (by norm_num)),
      Nat.mod_add_mod, List.sum_cons, Nat.add_assoc]

/-- C7: For every 32-byte frame, `checksum` passes iff the 16-bit
wraparound sum of bytes 0–29 equals the big-endian word at offset 30;
and a frame with the correct start marker `0x42 0x4D` whose checksum
word is zero always fails validation. -/
theorem checksum_mod_sum (frame : List Nat) (hlen : frame.length = 32)
    (hbytes : ∀ b ∈ frame, b < 256) :
    (checksum frame = true ↔ (frame.take 30).sum % 65536 = word frame 30)
    ∧ (frame.getD 0 0 = 0x42 → frame.getD 1 0 = 0x4D → word frame 30 = 0 →
        checksum frame = false) := by
  have hfold : checksum frame = true ↔ (frame.take 30).sum % 65536 = word frame 30 := by
    rw [checksum, hlen]
    rw [show (32 : Nat) - 2 = 30 from rfl, foldl_mod_add_sum _ 0 (by norm_num)]
    rw [Nat.zero_add, beq_iff_eq]
    exact eq_comm
  refine ⟨hfold, fun h0 h1 h30 => ?_⟩
  have hhi : (frame.take 30).sum ≤ 30 * 255 := by
    have hle : (frame.take 30).sum ≤ (frame.take 30).length • 255 :=
      List.sum_le_card_nsmul _ _ (fun x hx =>
        Nat.le_of_lt_succ (hbytes x (List.mem_of_mem_take hx)))
    have hlen30 : (frame.take 30).length = 30 := by
      simp [List.length_take, hlen]
    simpa [hlen30, smul_eq_mul] using hle
  have hlo : 0 < (frame.take 30).sum := by
    cases frame with
    | nil => simp at hlen
    | cons a l =>
      have ha : a = 0x42 := by simpa using h0
      rw [show (30 : Nat) = 29 + 1 from rfl, List.take_succ_cons, List.sum_cons, ha]
      omega
  by_contra hne
  have htrue : checksum frame = true := by
    cases hcs : checksum frame with
    | false => exact absurd hcs hne
    | true => rfl
  have := hfold.mp htrue
  rw [h30, Nat.mod_eq_of_lt (by omega)] at this
  omega

/-- Witness for `checksum_mod_sum` at the repository's literal frame. -/
theorem checksum_mod_sum_witness :
    checksum goodFrame = true ↔ (goodFrame.take 30).sum % 65536 = word goodFrame 30 :=
  (checksum_mod_sum goodFrame (by decide) (by decide)).1

/-- C4: For a successfully transported 32-byte frame, `ReadSensor`
errors iff the start word differs from 0x424D, the checksum fails, or
the error byte at offset 29 is nonzero; otherwise it returns the
`Results` decoded at the fixed offsets; and on the literal good frame it
returns standard-particle concentrations (0,1,5), atmospheric
concentrations (0,1,5), counts (126,42,15,9,3,3) and version 151. -/
theorem readSensor_validation (frame : List Nat) (hlen : frame.length = 32) :
    ((∃ e, (readSensor (mkBus [.ok frame])).1 = .error e)
      ↔ (word frame 0 ≠ 0x424d ∨ checksum frame = false ∨ frame.getD 29 0 ≠ 0))
    ∧ (word frame 0 = 0x424d → checksum frame = true → frame.getD 29 0 = 0 →
        (readSensor (mkBus [.ok frame])).1 = .ok
          { CfPm1 := word frame 4, CfPm2_5 := word frame 6, CfPm10 := word frame 8,
            EnvPm1 := word frame 10, EnvPm2_5 := word frame 12, EnvPm10 := word frame 14,
            Cnt0_3 := word frame 16, Cnt0_5 := word frame 18, Cnt1 := word frame 20,
            Cnt2_5 := word frame 22, Cnt5 := word frame 24, Cnt10 := word frame 26,
            Version := frame.getD 28 0 })
    ∧ (readSensor (mkBus [.ok goodFrame])).1 = .ok
        { CfPm1 := 0, CfPm2_5 := 1, CfPm10 := 5, EnvPm1 := 0, EnvPm2_5 := 1, EnvPm10 := 5,
          Cnt0_3 := 126, Cnt0_5 := 42, Cnt1 := 15, Cnt2_5 := 9, Cnt5 := 3, Cnt10 := 3,
          Version := 151 } := by
    refine ⟨?_, ?_, by decide⟩
    · by_cases h1 : word frame 0 = 0x424d <;>
        by_cases h2 : checksum frame = true <;>
        by_cases h3 : frame.getD 0x1d 0 = 0 <;>
        (try simp [hlen] at h3) <;>
        simp [readSensor, tx, mkBus, hlen, h1, h2, h3]
    · intro h1 h2 h3
      simp [hlen] at h3
      simp [readSensor, tx, mkBus, hlen, h1, h2, h3]

/-- Witness for `readSensor_validation` at the repository's literal
frame. -/
theorem readSensor_validation_witness :
    (readSensor (mkBus [.ok goodFrame])).1 = .ok
      { CfPm1 := 0, CfPm2_5 := 1, CfPm10 := 5, EnvPm1 := 0, EnvPm2_5 := 1, EnvPm10 := 5,
        Cnt0_3 := 126, Cnt0_5 := 42, Cnt1 := 15, Cnt2_5 := 9, Cnt5 := 3, Cnt10 := 3,
        Version := 151 } :=
  (readSensor_validation goodFrame (by decide)).2.2

/-- C9: For every gas-sensor reply delivered without transport error,
`GetSerialNumber` (3 groups), `GetFeatures` (1 group), `ReadAirQuality`
(2 groups, driver without a configured baseline path) and `ReadBaseline`
(2 groups) return a value iff every 3-byte group of the reply passes
CRC-8, and on failure return an error naming a failing group. -/
theorem multiGroup_crc_validation :
    (∀ reply : List Nat, reply.length = 9 →
      ((∃ v, (getSerialNumber (mkBus [.ok reply])).1 = .ok v)
        ↔ (checkCRC8 (reply.take 3) = true ∧ checkCRC8 ((reply.drop 3).take 3) = true
            ∧ checkCRC8 ((reply.drop 6).take 3) = true))
      ∧ (∀ e, (getSerialNumber (mkBus [.ok reply])).1 = .error e →
          (e = .crcError 1 ∧ checkCRC8 (reply.take 3) = false)
          ∨ (e = .crcError 2 ∧ checkCRC8 ((reply.drop 3).take 3) = false)
          ∨ (e = .crcError 3 ∧ checkCRC8 ((reply.drop 6).take 3) = false)))
    ∧ (∀ reply : List Nat, reply.length = 3 →
      ((∃ v, (getFeatures (mkBus [.ok reply])).1 = .ok v)
        ↔ checkCRC8 (reply.take 3) = true)
      ∧ (∀ e, (getFeatures (mkBus [.ok reply])).1 = .error e →
          e = .crcError 1 ∧ checkCRC8 (reply.take 3) = false))
    ∧ (∀ reply : List Nat, reply.length = 6 →
      ((∃ v, (readAirQuality ⟨"", 0, 0⟩ 0 (mkBus [.ok [], .ok reply])).res = .ok v)
        ↔ (checkCRC8 (reply.take 3) = true ∧ checkCRC8 ((reply.drop 3).take 3) = true))
      ∧ (∀ e, (readAirQuality ⟨"", 0, 0⟩ 0 (mkBus [.ok [], .ok reply])).res = .error e →
          (e = .crcError 1 ∧ checkCRC8 (reply.take 3) = false)
          ∨ (e = .crcError 2 ∧ checkCRC8 ((reply.drop 3).take 3) = false)))
    ∧ (∀ reply : List Nat, reply.length = 6 →
      ((∃ v, (readBaseline (mkBus [.ok reply])).1 = .ok v)
        ↔ (checkCRC8 (reply.take 3) = true ∧ checkCRC8 ((reply.drop 3).take 3) = true))
      ∧ (∀ e, (readBaseline (mkBus [.ok reply])).1 = .error e →
          (e = .crcError 1 ∧ checkCRC8 (reply.take 3) = false)
          ∨ (e = .crcError 2 ∧ checkCRC8 ((reply.drop 3).take 3) = false))) := by
  have hempty : ¬ (0 : Nat) < ("" : String).length := by decide
  refine ⟨fun reply hlen => ⟨?_, ?_⟩, fun reply hlen => ⟨?_, ?_⟩,
    fun reply hlen => ⟨?_, ?_⟩, fun reply hlen => ⟨?_, ?_⟩⟩
  · by_cases c1 : checkCRC8 (reply.take 3) = true <;>
      by_cases c2 : checkCRC8 ((reply.drop 3).take 3) = true <;>
      by_cases c3 : checkCRC8 ((reply.drop 6).take 3) = true <;>
      simp [getSerialNumber, tx, mkBus, hlen, c1, c2, c3]
  · intro e he
    by_cases c1 : checkCRC8 (reply.take 3) = true <;>
      by_cases c2 : checkCRC8 ((reply.drop 3).take 3) = true <;>
      by_cases c3 : checkCRC8 ((reply.drop 6).take 3) = true <;>
      simp [getSerialNumber, tx, mkBus, hlen, c1, c2, c3] at he <;>
      simp [← he, c1, c2, c3]
  · by_cases c1 : checkCRC8 (reply.take 3) = true <;>
      simp [getFeatures, tx, mkBus, hlen, c1]
  · intro e he
    by_cases c1 : checkCRC8 (reply.take 3) = true <;>
      simp [getFeatures, tx, mkBus, hlen, c1] at he <;>
      simp [← he, c1]
  · by_cases c1 : checkCRC8 (reply.take 3) = true <;>
      by_cases c2 : checkCRC8 ((reply.drop 3).take 3) = true <;>
      simp [readAirQuality, tx, mkBus, hlen, c1, c2, hempty]
  · intro e he
    by_cases c1 : checkCRC8 (reply.take 3) = true <;>
      by_cases c2 : checkCRC8 ((reply.drop 3).take 3) = true <;>
      simp [readAirQuality, tx, mkBus, hlen, c1, c2, hempty] at he <;>
      simp [← he, c1, c2]
  · by_cases c1 : checkCRC8 (reply.take 3) = true <;>
      by_cases c2 : checkCRC8 ((reply.drop 3).take 3) = true <;>
      simp [readBaseline, tx, mkBus, hlen, c1, c2]
  · intro e he
    by_cases c1 : checkCRC8 (reply.take 3) = true <;>
      by_cases c2 : checkCRC8 ((reply.drop 3).take 3) = true <;>
      simp [readBaseline, tx, mkBus, hlen, c1, c2] at he <;>
      simp [← he, c1, c2]

/-- Witness for `multiGroup_crc_validation` at the repository's test
replies. -/
theorem multiGroup_crc_validation_witness :
    (∃ v, (getSerialNumber (mkBus [.ok goodSerialReply])).1 = .ok v)
    ∧ (∃ v, (getFeatures (mkBus [.ok goodFeaturesReply])).1 = .ok v)
    ∧ (∃ v, (readAirQuality ⟨"", 0, 0⟩ 0 (mkBus [.ok [], .ok goodAQReply])).res = .ok v)
    ∧ (∃ v, (readBaseline (mkBus [.ok goodBaseline])).1 = .ok v) :=
  ⟨(multiGroup_crc_validation.1 goodSerialReply (by decide)).1.mpr
      ⟨by decide, by decide, by decide⟩,
   (multiGroup_crc_validation.2.1 goodFeaturesReply (by decide)).1.mpr (by decide),
   (multiGroup_crc_validation.2.2.1 goodAQReply (by decide)).1.mpr ⟨by decide, by decide⟩,
   (multiGroup_crc_validation.2.2.2 goodBaseline (by decide)).1.mpr ⟨by decide, by decide⟩⟩

/-- C2 counterexample: at the concrete driver state
`⟨"b", 1, 0⟩` with `now = 5` (autosave due) and a failing Read-Baseline
transaction, `ReadAirQuality` surfaces the transport error but the
last-save timestamp has been changed from 0 to 5 — the claim states it
is unchanged on error. -/
theorem readAirQuality_lastSave_changed_on_error :
    (readAirQuality ⟨"b", 1, 0⟩ 5 (mkBus [.ok [], .ok goodAQReply, .fail])).res
      = .error .txError
    ∧ (readAirQuality ⟨"b", 1, 0⟩ 5 (mkBus [.ok [], .ok goodAQReply, .fail])).dev.lastSave = 5
    ∧ (5 : Int) ≠ 0 := by
  decide

/-- C2 (amended): during autosave inside `ReadAirQuality`, the last-save
timestamp is reset to `now` *before* the Read-Baseline transaction; if
that transaction fails the error is surfaced, nothing is persisted, and
the timestamp keeps the new value `now`; if it succeeds, its result is
persisted to the configured path and the timestamp is likewise `now`. -/
theorem readAirQuality_autosave_order (d : Dev) (now : Int) (reply : List Nat)
    (hp : 0 < d.baselineFile.length)
    (hdue : d.baselineInterval ≤ now - d.lastSave)
    (hlen : reply.length = 6)
    (h1 : checkCRC8 (reply.take 3) = true)
    (h2 : checkCRC8 ((reply.drop 3).take 3) = true) :
    ((readAirQuality d now (mkBus [.ok [], .ok reply, .fail])).res = .error .txError
      ∧ (readAirQuality d now (mkBus [.ok [], .ok reply, .fail])).dev.lastSave = now
      ∧ (readAirQuality d now (mkBus [.ok [], .ok reply, .fail])).fileWrites = [])
    ∧ (∀ baseline : List Nat, baseline.length = 6 →
        checkCRC8 (baseline.take 3) = true →
        checkCRC8 ((baseline.drop 3).take 3) = true →
        (readAirQuality d now (mkBus [.ok [], .ok reply, .ok baseline])).res
            = .ok (word reply 0, word reply 3)
        ∧ (readAirQuality d now (mkBus [.ok [], .ok reply, .ok baseline])).dev.lastSave = now
        ∧ (readAirQuality d now (mkBus [.ok [], .ok reply, .ok baseline])).fileWrites
            = [(d.baselineFile, baseline)]) := by
  constructor
  · refine ⟨?_, ?_, ?_⟩ <;>
      simp [readAirQuality, readBaseline, tx, mkBus, hlen, h1, h2, hp, hdue]
  · intro baseline hblen hb1 hb2
    refine ⟨?_, ?_, ?_⟩ <;>
      simp [readAirQuality, readBaseline, tx, mkBus, hlen, h1, h2, hp, hdue, hblen, hb1, hb2]

/-- Witness for `readAirQuality_autosave_order` at the repository's test
vectors. -/
theorem readAirQuality_autosave_order_witness :
    (readAirQuality ⟨"b", 1, 0⟩ 5 (mkBus [.ok [], .ok goodAQReply, .ok goodBaseline])).res
      = .ok (414, 13)
    ∧ (readAirQuality ⟨"b", 1, 0⟩ 5
        (mkBus [.ok [], .ok goodAQReply, .ok goodBaseline])).fileWrites
      = [("b", goodBaseline)] := by
  have h := (readAirQuality_autosave_order ⟨"b", 1, 0⟩ 5 goodAQReply (by decide) (by decide)
    (by decide) (by decide) (by decide)).2 goodBaseline (by decide) (by decide) (by decide)
  exact ⟨by simpa using h.1, by simpa using h.2.2⟩

/-- C3 counterexample: a 7-byte calibration file whose first 6 bytes
pass both CRC-8 groups is accepted by `New` — a driver handle is
produced with no error — although the claim demands a construction-time
error for every file not exactly 6 bytes long. -/
theorem new_accepts_seven_byte_file :
    (new (mkBus [.ok goodSerialReply, .ok [], .ok []]) "b" (some sevenByteFile) 1 0).1
      = .ok ⟨"b", 1, 0⟩
    ∧ sevenByteFile.length ≠ 6 := by
  decide

/-- C3 (amended): for every configured calibration path at which a file
of at least 6 bytes exists, `New` (with a correct serial-number reply
and working transport) returns a driver handle iff the first two 3-byte
groups of the file pass CRC-8, and otherwise returns a CRC error as a
value; the file's length itself is never checked, so longer files are
accepted with the bytes beyond the first 6 ignored.  (Files shorter
than 6 bytes fall to Go slice-capacity semantics of `ioutil.ReadFile`
and are outside this model.) -/
theorem new_baseline_file_validation (path : String) (contents : List Nat)
    (interval now : Int) (hpath : 0 < path.length) (hlen : 6 ≤ contents.length) :
    ((∃ d, (new (mkBus [.ok goodSerialReply, .ok [], .ok []]) path (some contents)
        interval now).1 = .ok d)
      ↔ (checkCRC8 (contents.take 3) = true ∧ checkCRC8 ((contents.drop 3).take 3) = true))
    ∧ (checkCRC8 (contents.take 3) = true → checkCRC8 ((contents.drop 3).take 3) = true →
        (new (mkBus [.ok goodSerialReply, .ok [], .ok []]) path (some contents)
          interval now).1 = .ok ⟨path, interval, now⟩) := by
  have hser : getSerialNumber ⟨[.ok goodSerialReply, .ok [], .ok []], []⟩
      = (.ok 22523042, ⟨[.ok [], .ok []], [[0x36, 0x82]]⟩) := by decide
  constructor
  · by_cases c1 : checkCRC8 (contents.take 3) = true <;>
      by_cases c2 : checkCRC8 ((contents.drop 3).take 3) = true <;>
      simp [new, hser, setBaseline, startMeasurements, tx, mkBus, hpath, c1, c2]
  · intro c1 c2
    simp [new, hser, setBaseline, startMeasurements, tx, mkBus, hpath, c1, c2]

/-- Witness for `new_baseline_file_validation` at the repository's
literal baseline extended by one byte. -/
theorem new_baseline_file_validation_witness :
    (new (mkBus [.ok goodSerialReply, .ok [], .ok []]) "b" (some sevenByteFile) 1 0).1
      = .ok ⟨"b", 1, 0⟩ :=
  (new_baseline_file_validation "b" sevenByteFile 1 0 (by decide) (by decide)).2
    (by decide) (by decide)

/-- C6: on every successful air-quality read, the autosave action is
performed exactly once iff a baseline path is configured and the elapsed
time since the last save is at least the configured interval (equality
counts as due), and not at all otherwise. -/
theorem readAirQuality_autosave_once (d : Dev) (now : Int) (bus : BusState)
    (v : Nat × Nat) (hok : (readAirQuality d now bus).res = .ok v) :
    (readAirQuality d now bus).fileWrites.length
      = if 0 < d.baselineFile.length ∧ d.baselineInterval ≤ now - d.lastSave
        then 1 else 0 := by
  obtain ⟨script, trace⟩ := bus
  match script with
  | [] => simp [readAirQuality, tx] at hok
  | .fail :: s1 => simp [readAirQuality, tx] at hok
  | .ok bytes :: s1 =>
    by_cases hb : bytes.length = 0
    case neg => simp [readAirQuality, tx, hb] at hok
    case pos =>
    match s1 with
    | [] => simp [readAirQuality, tx, hb] at hok
    | .fail :: s2 => simp [readAirQuality, tx, hb] at hok
    | .ok data :: s2 =>
      by_cases hd : data.length = 6
      case neg => simp [readAirQuality, tx, hb, hd] at hok
      case pos =>
      by_cases h1 : checkCRC8 (data.take 3) = true
      case neg => simp [readAirQuality, tx, hb, hd, h1] at hok
      case pos =>
      by_cases h2 : checkCRC8 ((data.drop 3).take 3) = true
      case neg => simp [readAirQuality, tx, hb, hd, h1, h2] at hok
      case pos =>
      by_cases hcond : 0 < d.baselineFile.length ∧ d.baselineInterval ≤ now - d.lastSave
      case neg => simp [readAirQuality, tx, hb, hd, h1, h2, hcond]
      case pos =>
      match s2 with
      | [] => simp [readAirQuality, readBaseline, tx, hb, hd, h1, h2, hcond] at hok
      | .fail :: s3 => simp [readAirQuality, readBaseline, tx, hb, hd, h1, h2, hcond] at hok
      | .ok bl :: s3 =>
        by_cases hbl : bl.length = 6
        case neg => simp [readAirQuality, readBaseline, tx, hb, hd, h1, h2, hcond, hbl] at hok
        case pos =>
        by_cases g1 : checkCRC8 (bl.take 3) = true
        case neg =>
          simp [readAirQuality, readBaseline, tx, hb, hd, h1, h2, hcond, hbl, g1] at hok
        case pos =>
        by_cases g2 : checkCRC8 ((bl.drop 3).take 3) = true
        case neg =>
          simp [readAirQuality, readBaseline, tx, hb, hd, h1, h2, hcond, hbl, g1, g2] at hok
        case pos =>
          simp [readAirQuality, readBaseline, tx, hb, hd, h1, h2, hcond, hbl, g1, g2]

/-- Witness for `readAirQuality_autosave_once`: a due autosave on the
repository's test vectors performs exactly one file write. -/
theorem readAirQuality_autosave_once_witness :
    (readAirQuality ⟨"b", 1, 0⟩ 5
        (mkBus [.ok [], .ok goodAQReply, .ok goodBaseline])).fileWrites.length
      = if 0 < ("b" : String).length ∧ (1 : Int) ≤ 5 - 0 then 1 else 0 :=
  readAirQuality_autosave_once ⟨"b", 1, 0⟩ 5
    (mkBus [.ok [], .ok goodAQReply, .ok goodBaseline]) (414, 13) (by decide)

end AirSensors
